import Mathlib

/-!
Verification of the bar-to-indicator analytics pipeline of the o2 MCP server
(`o2_indicators` tool and the indicator utility module).

Shallow embedding conventions:
* JavaScript numbers are modelled as exact rationals (`ℚ`); the fixed-point
  decimal bar fields are modelled as the exact rational value of the decimal
  string (the source parses them with an exact decimal library before the
  final float conversion).  Division by zero and other non-finite outcomes
  are collapsed into a `nan` value; no claim below depends on a non-finite
  numeric path.
* Timestamps and millisecond durations are `ℤ`.
* The external native indicator library (talib) is modelled as an oracle
  function passed to the calculator; it may return arbitrary output arrays
  or throw (return an error), and all theorems quantify over it.
* The HTTP bar fetch is modelled as an oracle returning either a parsed bar
  list, a non-ok HTTP response, or a thrown error.
* JavaScript objects used as string-keyed records are association lists with
  insert-or-update semantics (`setKey`).
-/

/-- Model of the JavaScript runtime values that flow through the indicator
pipeline (numbers, strings, objects, `null`, `undefined`, and a collapsed
`nan` standing for the non-finite numbers). -/
inductive JsVal where
  | null : JsVal
  | undefined : JsVal
  | nan : JsVal
  | num : ℚ → JsVal
  | str : String → JsVal
  | obj : List (String × JsVal) → JsVal

/-- First-match lookup in a string-keyed association list (JavaScript object
property read; `none` is `undefined`). -/
def lookupKey {α : Type} : List (String × α) → String → Option α
  | [], _ => none
  | (k, v) :: rest, s => if s = k then some v else lookupKey rest s

/-- JavaScript truthiness: `null`, `undefined`, `NaN`, `0` and `""` are falsy;
objects are always truthy. -/
def truthy : JsVal → Bool
  | .null => false
  | .undefined => false
  | .nan => false
  | .num q => decide (q ≠ 0)
  | .str s => !s.isEmpty
  | .obj _ => true

/-- `typeof v === "number"` (`NaN` is a number in JavaScript). -/
def isNumber : JsVal → Bool
  | .num _ => true
  | .nan => true
  | _ => false

/-- Object field access `v.f`; yields `undefined` when the field is missing or
the value is not an object (the guarded uses below never dereference
`null`/`undefined`). -/
def jsField : JsVal → String → JsVal
  | .obj fields, k => (lookupKey fields k).getD .undefined
  | _, _ => .undefined

/-- `a - b` on runtime values; non-number operands (only `undefined`/`nan`
arise in this code base) produce `NaN`. -/
def jsSub : JsVal → JsVal → JsVal
  | .num a, .num b => .num (a - b)
  | _, _ => .nan

/-- `a * b` on runtime values, with the same non-number convention. -/
def jsMul : JsVal → JsVal → JsVal
  | .num a, .num b => .num (a * b)
  | _, _ => .nan

/-- `a / b` on runtime values.  A zero denominator yields a non-finite result
in JavaScript; it is collapsed into `nan` here (every division reached by the
claims below is guarded by a positivity test on the denominator). -/
def jsDiv : JsVal → JsVal → JsVal
  | .num a, .num b => if b = 0 then .nan else .num (a / b)
  | _, _ => .nan

/-- `a > b` on runtime values; comparisons involving `undefined`/`NaN` are
false (the `null` coercion case never arises in this code base). -/
def jsGt : JsVal → JsVal → Bool
  | .num a, .num b => decide (b < a)
  | _, _ => false

/-- `a < b` on runtime values, same conventions as `jsGt`. -/
def jsLt : JsVal → JsVal → Bool
  | .num a, .num b => decide (a < b)
  | _, _ => false

/-- `v !== null` (a strict comparison with the `null` value only). -/
def valueNotNull : JsVal → Bool
  | .null => false
  | _ => true

/-- Truthiness of the optional `error` field of an indicator result
(`undefined` and `""` are falsy). -/
def errTruthy : Option String → Bool
  | none => false
  | some e => !(e = "")

/-- ASCII lower-casing of one character, the fragment of
`String.prototype.toLowerCase` exercised by the indicator identifiers. -/
def jsLowerChar (c : Char) : Char :=
  if 65 ≤ c.toNat ∧ c.toNat ≤ 90 then Char.ofNat (c.toNat + 32) else c

/-- One character of the per-character step of lower-casing and dash replacement: lower-case,
then map a dash to an underscore. -/
def jsNormChar (c : Char) : Char :=
  let l := jsLowerChar c
  if l = '-' then '_' else l

/-- Lower-casing followed by replacing every dash with an underscore, the normalisation applied both by
`normalizeIndicatorName` and inside the lookback resolver / calculator. -/
def normStr (s : String) : String :=
  ⟨s.data.map jsNormChar⟩

/-- `s.startsWith(p)` on the character lists. -/
def strStartsWith (s p : String) : Bool :=
  p.data.isPrefixOf s.data

/-- Splitting a character list on `'_'` (model of `String.prototype.split`). -/
def splitUnd : List Char → List Char → List (List Char)
  | [], acc => [acc.reverse]
  | c :: rest, acc =>
    if c = '_' then acc.reverse :: splitUnd rest [] else splitUnd rest (c :: acc)

/-- `parseInt` on a segment consisting of the leading decimal digits; `none`
models the `NaN` result (no leading digit).  The segments produced by the
identifier grammar never carry signs or whitespace. -/
def jsParseIntNat (cs : List Char) : Option ℕ :=
  match cs.takeWhile Char.isDigit with
  | [] => none
  | ds => some (ds.foldl (fun n c => 10 * n + (c.toNat - 48)) 0)

/-- `parseInt(normalized.split("_")[1]) || dflt`: a missing segment, a
non-numeric segment (`NaN`) and a parsed `0` (falsy) all fall back to the
default period. -/
def parsePeriod (s : String) (dflt : ℕ) : ℕ :=
  match (splitUnd s.data []).get? 1 with
  | none => dflt
  | some seg =>
    match jsParseIntNat seg with
    | none => dflt
    | some 0 => dflt
    | some n => n

/-- The alias table of `normalizeIndicatorName` (tool file), in source order. -/
def aliasesList : List (String × String) :=
  [("rsi14", "rsi_14"), ("sma20", "sma_20"), ("sma50", "sma_50"),
   ("ema12", "ema_12"), ("ema26", "ema_26"), ("mfi14", "mfi_14"),
   ("cci20", "cci_20"), ("atr14", "atr_14"), ("adx14", "adx_14"),
   ("plusdi", "plus_di"), ("minusdi", "minus_di"),
   ("macd_12_26_9", "macd"), ("bbands_20_2", "bbands"),
   ("stoch_14_3_3", "stoch")]

/-- First-match lookup in the alias table (`aliases[lower]`). -/
def aliasLookup : List (String × String) → String → Option String
  | [], _ => none
  | (k, v) :: rest, s => if s = k then some v else aliasLookup rest s

/-- `normalizeIndicatorName` from the `o2_indicators` tool: lower-case,
dashes to underscores, then the alias table (`aliases[lower] || lower`;
every alias value is a non-empty, hence truthy, string). -/
def normalizeIndicatorName (name : String) : String :=
  let lower := normStr name
  match aliasLookup aliasesList lower with
  | some v => v
  | none => lower

/-- `getIndicatorLookback` from the indicator utility module: minimum bar
count per indicator family, with the same branch order as the source. -/
def getIndicatorLookback (indicator : String) : ℕ :=
  let normalized := normStr indicator
  if strStartsWith normalized "sma_" then parsePeriod normalized 20
  else if strStartsWith normalized "ema_" then parsePeriod normalized 12 * 2
  else if strStartsWith normalized "rsi_" then parsePeriod normalized 14 + 1
  else if normalized = "macd" || strStartsWith normalized "macd_" then 35
  else if strStartsWith normalized "bbands" then 20
  else if strStartsWith normalized "atr_" then 14
  else if strStartsWith normalized "adx_" then parsePeriod normalized 14 * 2
  else if normalized = "plus_di" || normalized = "minus_di" then 28
  else if normalized = "vwap" then 1
  else if strStartsWith normalized "cci_" then 20
  else if normalized = "stoch" then 14
  else if strStartsWith normalized "mfi_" then 14
  else if normalized = "obv" then 1
  else 50

example : normalizeIndicatorName "RSI14" = "rsi_14" := by decide
example : normalizeIndicatorName "atr-14" = "atr_14" := by decide
example : normalizeIndicatorName "vwap" = "vwap" := by decide
example : getIndicatorLookback "sma_20" = 20 := by decide
example : getIndicatorLookback "ema_26" = 52 := by decide
example : getIndicatorLookback "rsi_14" = 15 := by decide
example : getIndicatorLookback "atr_20" = 14 := by decide
example : getIndicatorLookback "cci_14" = 20 := by decide
example : getIndicatorLookback "mfi_20" = 14 := by decide
example : getIndicatorLookback "unknown_thing" = 50 := by decide

/-- The price-source selector of the request schema. -/
inductive PriceSource where
  | close : PriceSource
  | hlc3 : PriceSource
  | ohlc4 : PriceSource
deriving DecidableEq

/-- Raw fixed-point bar record as returned by the market data provider.  The
decimal-string fields are modelled by their exact rational values (the source
parses them with the exact `Decimal` library). -/
structure RawBar where
  buy_volume : ℚ
  close : ℚ
  high : ℚ
  low : ℚ
  open_ : ℚ
  sell_volume : ℚ
  timestamp : ℤ

/-- Decoded OHLCV series (`TransformedBars` in the source). -/
structure TransformedBars where
  open_ : List ℚ
  high : List ℚ
  low : List ℚ
  close : List ℚ
  volume : List ℚ
  timestamp : List ℤ

/-- Calculation options (`TransformOptions` in the source). -/
structure TransformOptions where
  priceDecimals : ℕ := 9
  volumeDecimals : ℕ := 9
  priceSource : PriceSource := .close

/-- `scaleDown(value, decimals) = value / 10^decimals` (the `decimals = 0`
branch of the source is a mere fast path). -/
def scaleDown (value : ℚ) (decimals : ℕ) : ℚ :=
  if decimals = 0 then value else value / (10 : ℚ) ^ decimals

/-- `transformBarsToArrays`: decode every bar field, with
`volume = scaleDown(buy_volume + sell_volume)`. -/
def transformBarsToArrays (bars : List RawBar) (options : TransformOptions) :
    TransformedBars :=
  { open_ := bars.map fun b => scaleDown b.open_ options.priceDecimals
    high := bars.map fun b => scaleDown b.high options.priceDecimals
    low := bars.map fun b => scaleDown b.low options.priceDecimals
    close := bars.map fun b => scaleDown b.close options.priceDecimals
    volume := bars.map fun b =>
      scaleDown (b.buy_volume + b.sell_volume) options.volumeDecimals
    timestamp := bars.map RawBar.timestamp }

/-- Indexing `xs[i]`; out-of-range access yields `undefined` in JavaScript and
is collapsed to `0` here — the series are parallel in every reachable state,
so the default is never observed by the claims below. -/
def jsIdx (xs : List ℚ) (i : ℕ) : ℚ := (xs.get? i).getD 0

/-- `getPriceArray`: `close`, `hlc3 = (h+l+c)/3`, `ohlc4 = (o+h+l+c)/4`,
mapping over the `high` series with parallel indexing as in the source. -/
def getPriceArray (bars : TransformedBars) : PriceSource → List ℚ
  | .close => bars.close
  | .hlc3 => bars.high.enum.map fun p =>
      (p.2 + jsIdx bars.low p.1 + jsIdx bars.close p.1) / 3
  | .ohlc4 => bars.high.enum.map fun p =>
      (jsIdx bars.open_ p.1 + p.2 + jsIdx bars.low p.1 + jsIdx bars.close p.1) / 4

/-- Metadata attached to every indicator result; `extra` holds the
indicator-specific parameters in source order. -/
structure Meta where
  requiredBars : ℕ
  providedBars : ℕ
  warmupBars : ℕ
  extra : List (String × JsVal) := []

/-- `IndicatorResult` of the source (`value` is `JsVal.null` for the caught
error shape; `prev`/`delta` default to `undefined` when a branch omits them). -/
structure IndicatorResult where
  value : JsVal
  prev : JsVal := .undefined
  delta : JsVal := .undefined
  levels : Option (List (String × ℚ)) := none
  meta : Meta
  error : Option String := none

/-- One `talib.execute` call: the function name, index range, input series and
numeric `optIn*` parameters, exactly as assembled by the source. -/
structure TalibCall where
  name : String
  startIdx : ℕ
  endIdx : ℤ
  inReal : List ℚ := []
  high : List ℚ := []
  low : List ℚ := []
  close : List ℚ := []
  volume : List ℚ := []
  params : List (String × ℚ) := []

/-- The native talib library, modelled as an oracle: it returns named output
arrays (`result.result.<field>`) or throws. -/
def TalibOracle : Type := TalibCall → Except String (List (String × List ℚ))

/-- Read one output array of a talib result; a missing field is an `undefined`
array in JavaScript and is collapsed to `[]`, which produces the same
`undefined` element reads downstream. -/
def getOut (r : List (String × List ℚ)) (k : String) : List ℚ :=
  (lookupKey r k).getD []

/-- `values[values.length - 1]` (`undefined` when the array is empty). -/
def lastQ (xs : List ℚ) : JsVal :=
  match xs.getLast? with
  | some q => .num q
  | none => .undefined

/-- `values.length > 1 ? values[values.length - 2] : null`. -/
def prevOrNull (xs : List ℚ) : JsVal :=
  match xs.dropLast.getLast? with
  | some q => .num q
  | none => .null

/-- `values.length > 1 ? values[values.length - 1] - values[values.length - 2] : null`. -/
def deltaOrNull (xs : List ℚ) : JsVal :=
  match xs.getLast?, xs.dropLast.getLast? with
  | some a, some b => .num (a - b)
  | _, _ => .null

/-- `xs[xs.length - 2]` as a field of a `prev` object (`undefined` when the
array has fewer than two elements). -/
def prevField (xs : List ℚ) : JsVal :=
  match xs.dropLast.getLast? with
  | some q => .num q
  | none => .undefined

/-- `xs[xs.length - 1] - xs[xs.length - 2]` as a field of a `delta` object;
with fewer than two elements the subtraction involves `undefined` and gives
`NaN`. -/
def lastMinusPrev (xs : List ℚ) : JsVal :=
  match xs.getLast?, xs.dropLast.getLast? with
  | some a, some b => .num (a - b)
  | _, _ => .nan

/-- `typicalPrice = (high[i] + low[i] + close[i]) / 3`. -/
def typicalPrice (bars : TransformedBars) (i : ℕ) : ℚ :=
  (jsIdx bars.high i + jsIdx bars.low i + jsIdx bars.close i) / 3

/-- The cumulative VWAP loop of the source, with the remaining iteration count
as structural fuel (the loop runs exactly `bars.close.length` times): at index
`i` it pushes `cumulativePV / cumulativeVolume` when the cumulative volume is
positive, and the current typical price otherwise. -/
def vwapLoopAux (bars : TransformedBars) :
    ℕ → ℕ → ℚ → ℚ → List ℚ
  | 0, _, _, _ => []
  | fuel + 1, i, cumulativePV, cumulativeVolume =>
    let tp := typicalPrice bars i
    let pv := cumulativePV + tp * jsIdx bars.volume i
    let cv := cumulativeVolume + jsIdx bars.volume i
    (if 0 < cv then pv / cv else tp) :: vwapLoopAux bars fuel (i + 1) pv cv

/-- The `vwapValues` array produced by the VWAP branch. -/
def vwapValues (bars : TransformedBars) : List ℚ :=
  vwapLoopAux bars bars.close.length 0 0 0

/-- Sum of `typicalPrice · volume` over indices `i, i+1, …` for `fuel` terms. -/
def sumTPVAux (bars : TransformedBars) : ℕ → ℕ → ℚ
  | 0, _ => 0
  | fuel + 1, i => typicalPrice bars i * jsIdx bars.volume i + sumTPVAux bars fuel (i + 1)

/-- Cumulative `Σ typicalPrice · volume` over the whole fetched window. -/
def sumTPV (bars : TransformedBars) : ℚ := sumTPVAux bars bars.close.length 0

/-- Sum of `volume` over indices `i, i+1, …` for `fuel` terms. -/
def sumVolAux (bars : TransformedBars) : ℕ → ℕ → ℚ
  | 0, _ => 0
  | fuel + 1, i => jsIdx bars.volume i + sumVolAux bars fuel (i + 1)

/-- Cumulative `Σ volume` over the whole fetched window. -/
def sumVol (bars : TransformedBars) : ℚ := sumVolAux bars bars.close.length 0

/-- The `try` body of `calculateIndicator`: branch dispatch in source order;
a thrown oracle error propagates out (to be caught by the wrapper below). -/
def calcBody (talib : TalibOracle) (indicator : String) (bars : TransformedBars)
    (options : TransformOptions) : Except String (Option IndicatorResult) :=
  let normalized := normStr indicator
  let endIdx : ℤ := (bars.close.length : ℤ) - 1
  let priceArray := getPriceArray bars options.priceSource
  if strStartsWith normalized "sma_" then
    let period := parsePeriod normalized 20
    if bars.close.length < period then .ok none
    else do
      let res ← talib { name := "SMA", startIdx := 0, endIdx := endIdx,
                        inReal := priceArray,
                        params := [("optInTimePeriod", (period : ℚ))] }
      let values := getOut res "outReal"
      .ok (some { value := lastQ values, prev := prevOrNull values,
                  delta := deltaOrNull values,
                  meta := { requiredBars := period,
                            providedBars := bars.close.length,
                            warmupBars := period - 1,
                            extra := [("period", .num period)] } })
  else if strStartsWith normalized "ema_" then
    let period := parsePeriod normalized 12
    if bars.close.length < period then .ok none
    else do
      let res ← talib { name := "EMA", startIdx := 0, endIdx := endIdx,
                        inReal := priceArray,
                        params := [("optInTimePeriod", (period : ℚ))] }
      let values := getOut res "outReal"
      .ok (some { value := lastQ values, prev := prevOrNull values,
                  delta := deltaOrNull values,
                  meta := { requiredBars := period * 2,
                            providedBars := bars.close.length,
                            warmupBars := 3 * period / 2,
                            extra := [("period", .num period)] } })
  else if strStartsWith normalized "rsi_" then
    let period := parsePeriod normalized 14
    if bars.close.length < period + 1 then .ok none
    else do
      let res ← talib { name := "RSI", startIdx := 0, endIdx := endIdx,
                        inReal := priceArray,
                        params := [("optInTimePeriod", (period : ℚ))] }
      let values := getOut res "outReal"
      .ok (some { value := lastQ values, prev := prevOrNull values,
                  delta := deltaOrNull values,
                  levels := some [("overbought", 70), ("oversold", 30)],
                  meta := { requiredBars := period + 1,
                            providedBars := bars.close.length,
                            warmupBars := period,
                            extra := [("period", .num period)] } })
  else if normalized = "macd" || strStartsWith normalized "macd_" then
    if bars.close.length < 35 then .ok none
    else do
      let res ← talib { name := "MACD", startIdx := 0, endIdx := endIdx,
                        inReal := priceArray,
                        params := [("optInFastPeriod", 12), ("optInSlowPeriod", 26),
                                   ("optInSignalPeriod", 9)] }
      let macdValues := getOut res "outMACD"
      let signalValues := getOut res "outMACDSignal"
      let histValues := getOut res "outMACDHist"
      .ok (some
        { value := .obj [("macd", lastQ macdValues), ("signal", lastQ signalValues),
                         ("histogram", lastQ histValues)],
          prev := if 1 < macdValues.length then
              .obj [("macd", prevField macdValues), ("signal", prevField signalValues),
                    ("histogram", prevField histValues)]
            else .null,
          delta := if 1 < macdValues.length then
              .obj [("macd", lastMinusPrev macdValues),
                    ("signal", lastMinusPrev signalValues),
                    ("histogram", lastMinusPrev histValues)]
            else .null,
          meta := { requiredBars := 35, providedBars := bars.close.length,
                    warmupBars := 33,
                    extra := [("fast", .num 12), ("slow", .num 26),
                              ("signal", .num 9)] } })
  else if strStartsWith normalized "bbands" then
    if bars.close.length < 20 then .ok none
    else do
      let res ← talib { name := "BBANDS", startIdx := 0, endIdx := endIdx,
                        inReal := priceArray,
                        params := [("optInTimePeriod", 20), ("optInNbDevUp", 2),
                                   ("optInNbDevDn", 2), ("optInMAType", 0)] }
      let upper := getOut res "outRealUpperBand"
      let middle := getOut res "outRealMiddleBand"
      let lower := getOut res "outRealLowerBand"
      let currentPrice := lastQ bars.close
      let percentB := jsDiv (jsSub currentPrice (lastQ lower))
        (jsSub (lastQ upper) (lastQ lower))
      let bandwidth := jsMul (jsDiv (jsSub (lastQ upper) (lastQ lower))
        (lastQ middle)) (.num 100)
      .ok (some
        { value := .obj [("upper", lastQ upper), ("middle", lastQ middle),
                         ("lower", lastQ lower), ("percentB", percentB),
                         ("bandwidth", bandwidth)],
          prev := if 1 < upper.length then
              .obj [("upper", prevField upper), ("middle", prevField middle),
                    ("lower", prevField lower)]
            else .null,
          meta := { requiredBars := 20, providedBars := bars.close.length,
                    warmupBars := 19,
                    extra := [("period", .num 20), ("stdDev", .num 2)] } })
  else if strStartsWith normalized "atr_" then
    let period := parsePeriod normalized 14
    if bars.close.length < period then .ok none
    else do
      let res ← talib { name := "ATR", startIdx := 0, endIdx := endIdx,
                        high := bars.high, low := bars.low, close := bars.close,
                        params := [("optInTimePeriod", (period : ℚ))] }
      let values := getOut res "outReal"
      .ok (some { value := lastQ values, prev := prevOrNull values,
                  delta := deltaOrNull values,
                  meta := { requiredBars := period,
                            providedBars := bars.close.length,
                            warmupBars := period - 1,
                            extra := [("period", .num period)] } })
  else if strStartsWith normalized "adx_" then
    let period := parsePeriod normalized 14
    if bars.close.length < period * 2 then .ok none
    else do
      let res ← talib { name := "ADX", startIdx := 0, endIdx := endIdx,
                        high := bars.high, low := bars.low, close := bars.close,
                        params := [("optInTimePeriod", (period : ℚ))] }
      let values := getOut res "outReal"
      .ok (some { value := lastQ values, prev := prevOrNull values,
                  delta := deltaOrNull values,
                  levels := some [("strong", 25), ("weak", 15)],
                  meta := { requiredBars := period * 2,
                            providedBars := bars.close.length,
                            warmupBars := period * 2 - 1,
                            extra := [("period", .num period)] } })
  else if normalized = "plus_di" || normalized = "plusdi" then
    let period := 14
    if bars.close.length < period * 2 then .ok none
    else do
      let res ← talib { name := "PLUS_DI", startIdx := 0, endIdx := endIdx,
                        high := bars.high, low := bars.low, close := bars.close,
                        params := [("optInTimePeriod", (period : ℚ))] }
      let values := getOut res "outReal"
      .ok (some { value := lastQ values, prev := prevOrNull values,
                  delta := deltaOrNull values,
                  meta := { requiredBars := period * 2,
                            providedBars := bars.close.length,
                            warmupBars := period * 2 - 1,
                            extra := [("period", .num period)] } })
  else if normalized = "minus_di" || normalized = "minusdi" then
    let period := 14
    if bars.close.length < period * 2 then .ok none
    else do
      let res ← talib { name := "MINUS_DI", startIdx := 0, endIdx := endIdx,
                        high := bars.high, low := bars.low, close := bars.close,
                        params := [("optInTimePeriod", (period : ℚ))] }
      let values := getOut res "outReal"
      .ok (some { value := lastQ values, prev := prevOrNull values,
                  delta := deltaOrNull values,
                  meta := { requiredBars := period * 2,
                            providedBars := bars.close.length,
                            warmupBars := period * 2 - 1,
                            extra := [("period", .num period)] } })
  else if normalized = "vwap" then
    if bars.close.length < 1 then .ok none
    else
      let vv := vwapValues bars
      .ok (some { value := lastQ vv, prev := prevOrNull vv,
                  delta := deltaOrNull vv,
                  meta := { requiredBars := 1,
                            providedBars := bars.close.length,
                            warmupBars := 0,
                            extra := [("anchor", .str "window")] } })
  else if strStartsWith normalized "cci_" then
    let period := parsePeriod normalized 20
    if bars.close.length < period then .ok none
    else do
      let res ← talib { name := "CCI", startIdx := 0, endIdx := endIdx,
                        high := bars.high, low := bars.low, close := bars.close,
                        params := [("optInTimePeriod", (period : ℚ))] }
      let values := getOut res "outReal"
      .ok (some { value := lastQ values, prev := prevOrNull values,
                  delta := deltaOrNull values,
                  levels := some [("overbought", 100), ("oversold", -100)],
                  meta := { requiredBars := period,
                            providedBars := bars.close.length,
                            warmupBars := period - 1,
                            extra := [("period", .num period)] } })
  else if normalized = "stoch" then
    let period := 14
    if bars.close.length < period then .ok none
    else do
      let res ← talib { name := "STOCH", startIdx := 0, endIdx := endIdx,
                        high := bars.high, low := bars.low, close := bars.close,
                        params := [("optInFastK_Period", 14), ("optInSlowK_Period", 3),
                                   ("optInSlowK_MAType", 0), ("optInSlowD_Period", 3),
                                   ("optInSlowD_MAType", 0)] }
      let kValues := getOut res "outSlowK"
      let dValues := getOut res "outSlowD"
      .ok (some
        { value := .obj [("k", lastQ kValues), ("d", lastQ dValues)],
          prev := if 1 < kValues.length then
              .obj [("k", prevField kValues), ("d", prevField dValues)]
            else .null,
          delta := if 1 < kValues.length then
              .obj [("k", lastMinusPrev kValues), ("d", lastMinusPrev dValues)]
            else .null,
          levels := some [("overbought", 80), ("oversold", 20)],
          meta := { requiredBars := period, providedBars := bars.close.length,
                    warmupBars := period - 1,
                    extra := [("fastK", .num 14), ("slowK", .num 3),
                              ("slowD", .num 3)] } })
  else if strStartsWith normalized "mfi_" then
    let period := parsePeriod normalized 14
    if bars.close.length < period then .ok none
    else do
      let res ← talib { name := "MFI", startIdx := 0, endIdx := endIdx,
                        high := bars.high, low := bars.low, close := bars.close,
                        volume := bars.volume,
                        params := [("optInTimePeriod", (period : ℚ))] }
      let values := getOut res "outReal"
      .ok (some { value := lastQ values, prev := prevOrNull values,
                  delta := deltaOrNull values,
                  levels := some [("overbought", 80), ("oversold", 20)],
                  meta := { requiredBars := period,
                            providedBars := bars.close.length,
                            warmupBars := period - 1,
                            extra := [("period", .num period)] } })
  else if normalized = "obv" then
    if bars.close.length < 1 then .ok none
    else do
      let res ← talib { name := "OBV", startIdx := 0, endIdx := endIdx,
                        inReal := bars.close, volume := bars.volume }
      let values := getOut res "outReal"
      .ok (some { value := lastQ values, prev := prevOrNull values,
                  delta := deltaOrNull values,
                  meta := { requiredBars := 1,
                            providedBars := bars.close.length,
                            warmupBars := 0 } })
  else .ok none

/-- `calculateIndicator`: the `try` body above, with the `catch` converting a
thrown error into `{value: null, error, meta}` exactly as in the source. -/
def calculateIndicator (talib : TalibOracle) (indicator : String)
    (bars : TransformedBars) (options : TransformOptions) :
    Option IndicatorResult :=
  match calcBody talib indicator bars options with
  | .ok r => r
  | .error e =>
    some { value := .null, error := some e,
           meta := { requiredBars := getIndicatorLookback indicator,
                     providedBars := bars.close.length,
                     warmupBars := 0 } }

/-- Read `indicators[key]` from a `Record<string, IndicatorResult | null>`:
a missing key (`undefined`) and a stored `null` are both falsy and collapse to
`none`. -/
def getInd (indicators : List (String × Option IndicatorResult)) (k : String) :
    Option IndicatorResult :=
  match lookupKey indicators k with
  | some (some r) => some r
  | _ => none

/-- The guard `x && x.value && typeof x.value === "number" && x.value > 0`
used for ATR in `computeDerivedFields` (truthiness of a number is subsumed by
the positivity test). -/
def numPosGuard : Option IndicatorResult → Bool
  | some r => truthy r.value && isNumber r.value && jsGt r.value (.num 0)
  | none => false

/-- The guard `x && x.value && typeof x.value === "number"` used for SMA20 and
VWAP in `computeDerivedFields`; note that JavaScript truthiness rejects a
numeric value of `0`. -/
def numTruthyGuard : Option IndicatorResult → Bool
  | some r => truthy r.value && isNumber r.value
  | none => false

/-- Extract the numeric value behind a passed guard (`0` is never observed,
since both guards above require a truthy value). -/
def numOf : Option IndicatorResult → JsVal
  | some r => r.value
  | none => .undefined

/-- `computeDerivedFields`: distance of the current price from SMA20 / VWAP in
ATR units, emitted only behind the truthiness guards of the source and in the
source assignment order. -/
def computeDerivedFields (indicators : List (String × Option IndicatorResult))
    (currentPrice : JsVal) : List (String × JsVal) :=
  let atr := getInd indicators "atr_14"
  let sma20 := getInd indicators "sma_20"
  let vwap := getInd indicators "vwap"
  if numPosGuard atr then
    (if numTruthyGuard sma20 then
      [("dist_sma20_atr", jsDiv (jsSub currentPrice (numOf sma20)) (numOf atr))]
     else []) ++
    (if numTruthyGuard vwap then
      [("dist_vwap_atr", jsDiv (jsSub currentPrice (numOf vwap)) (numOf atr))]
     else [])
  else []

/-- Trend-bias axis of the regime classifier. -/
inductive TrendBias where
  | bullish : TrendBias
  | bearish : TrendBias
  | neutral : TrendBias
deriving DecidableEq

/-- Trend-strength axis of the regime classifier. -/
inductive TrendStrength where
  | strong : TrendStrength
  | moderate : TrendStrength
  | weak : TrendStrength
deriving DecidableEq

/-- Momentum axis of the regime classifier. -/
inductive Momentum where
  | positive_strong : Momentum
  | positive_weakening : Momentum
  | negative_strong : Momentum
  | negative_weakening : Momentum
  | neutral : Momentum
deriving DecidableEq

/-- Volatility axis of the regime classifier. -/
inductive Volatility where
  | low : Volatility
  | moderate : Volatility
  | high : Volatility
deriving DecidableEq

/-- `MicroSummary` of the source. -/
structure MicroSummary where
  trendBias : TrendBias
  trendStrength : TrendStrength
  momentum : Momentum
  volatility : Volatility
  inputs : List String

/-- The SMA-alignment step of `generateMicroSummary`: starting from `neutral`,
`price > sma20 > sma50` sets `bullish` and `price < sma20 < sma50` sets
`bearish`, recording the fired rule. -/
def smaTrendStep (currentPrice : JsVal)
    (sma20 sma50 : Option IndicatorResult) : TrendBias × List String :=
  match sma20, sma50 with
  | some s20, some s50 =>
    if isNumber s20.value && isNumber s50.value then
      if jsGt currentPrice s20.value && jsGt s20.value s50.value then
        (.bullish, ["price>sma20>sma50"])
      else if jsLt currentPrice s20.value && jsLt s20.value s50.value then
        (.bearish, ["price<sma20<sma50"])
      else (.neutral, [])
    else (.neutral, [])
  | _, _ => (.neutral, [])

/-- The DI step of `generateMicroSummary`: `+DI > −DI` flips
`bearish → neutral` and `neutral → bullish`, otherwise `bullish → neutral`
and `neutral → bearish`. -/
def diTrendStep (bias : TrendBias) (plusDI minusDI : Option IndicatorResult)
    (inputs : List String) : TrendBias × List String :=
  match plusDI, minusDI with
  | some p, some m =>
    if isNumber p.value && isNumber m.value then
      if jsGt p.value m.value then
        ((match bias with
          | .bearish => .neutral
          | .neutral => .bullish
          | .bullish => .bullish), inputs ++ ["+di>-di"])
      else
        ((match bias with
          | .bullish => .neutral
          | .neutral => .bearish
          | .bearish => .bearish), inputs ++ ["+di<-di"])
    else (bias, inputs)
  | _, _ => (bias, inputs)

/-- `generateMicroSummary`: the rule cascade over the already-computed
indicator results, with the source branch structure and `inputs` tags. -/
def generateMicroSummary (indicators : List (String × Option IndicatorResult))
    (currentPrice : JsVal) : MicroSummary :=
  let sma20 := getInd indicators "sma_20"
  let sma50 := getInd indicators "sma_50"
  let adx := getInd indicators "adx_14"
  let plusDI := getInd indicators "plus_di"
  let minusDI := getInd indicators "minus_di"
  let rsi := getInd indicators "rsi_14"
  let macd := getInd indicators "macd"
  let atr := getInd indicators "atr_14"
  let bbands := getInd indicators "bbands"
  let st1 := smaTrendStep currentPrice sma20 sma50
  let st2 := diTrendStep st1.1 plusDI minusDI st1.2
  let st3 : TrendStrength × List String :=
    match adx with
    | some a =>
      if isNumber a.value then
        if jsGt a.value (.num 25) then (.strong, st2.2 ++ ["adx>25"])
        else if jsGt a.value (.num 15) then (.moderate, st2.2 ++ ["adx>15"])
        else (.weak, st2.2 ++ ["adx<15"])
      else (.weak, st2.2)
    | none => (.weak, st2.2)
  let st4 : Momentum × List String :=
    match rsi, macd with
    | some r, some mr =>
      if isNumber r.value && truthy mr.value &&
          isNumber (jsField mr.value "histogram") then
        let macdHist := jsField mr.value "histogram"
        let macdDelta : JsVal :=
          if truthy mr.delta && isNumber (jsField mr.delta "histogram") then
            jsField mr.delta "histogram"
          else .num 0
        if jsGt r.value (.num 50) && jsGt macdHist (.num 0) then
          if jsGt macdDelta (.num 0) then
            (.positive_strong, st3.2 ++ ["macd_hist>0_rising"])
          else (.positive_weakening, st3.2 ++ ["macd_hist>0_falling"])
        else if jsLt r.value (.num 50) && jsLt macdHist (.num 0) then
          if jsLt macdDelta (.num 0) then
            (.negative_strong, st3.2 ++ ["macd_hist<0_falling"])
          else (.negative_weakening, st3.2 ++ ["macd_hist<0_rising"])
        else (.neutral, st3.2)
      else (.neutral, st3.2)
    | _, _ => (.neutral, st3.2)
  let st5 : Volatility × List String :=
    match atr, bbands with
    | some a, some b =>
      if isNumber a.value && truthy b.value then
        let atrPct := jsMul (jsDiv a.value currentPrice) (.num 100)
        let bandwidth : JsVal :=
          if isNumber (jsField b.value "bandwidth") then jsField b.value "bandwidth"
          else .num 0
        if jsLt atrPct (.num 1) && jsLt bandwidth (.num 2) then
          (.low, st4.2 ++ ["low_volatility"])
        else if jsGt atrPct (.num 3) || jsGt bandwidth (.num 5) then
          (.high, st4.2 ++ ["high_volatility"])
        else (.moderate, st4.2)
      else (.moderate, st4.2)
    | _, _ => (.moderate, st4.2)
  { trendBias := st2.1, trendStrength := st3.1, momentum := st4.1,
    volatility := st5.1, inputs := st5.2 }

/-- Candlestick resolutions accepted by the request schema. -/
inductive Resolution where
  | r1m | r5m | r15m | r30m | r1h | r4h | r1d | r1w
deriving DecidableEq

/-- The `resolutionMs` table of the orchestrator.  (The source carries a dead
`|| resolutionMs["5m"]` fallback; the schema restricts `resolution` to this
closed enumeration, so the lookup always succeeds.) -/
def resolutionMs : Resolution → ℤ
  | .r1m => 60000
  | .r5m => 300000
  | .r15m => 900000
  | .r30m => 1800000
  | .r1h => 3600000
  | .r4h => 14400000
  | .r1d => 86400000
  | .r1w => 604800000

/-- Output modes. -/
inductive Mode where
  | snapshot | window
deriving DecidableEq

/-- The `vwapAnchor` request option (accepted by the schema; the orchestrator
destructures it but never reads it afterwards). -/
inductive VwapAnchor where
  | session | window
deriving DecidableEq

/-- A non-fatal warning `{code, details}`. -/
structure Warning where
  code : String
  details : List (String × JsVal) := []

/-- The `o2_indicators` request after schema validation and defaulting, with
the source defaults.  `fromParam`/`toParam`/`asOf` are already parsed to
millisecond integers (the source applies `parseInt` to string inputs). -/
structure IndicatorsRequest where
  marketId : String
  indicators : List String
  resolution : Resolution
  mode : Mode := .snapshot
  period : String := "24h"
  fromParam : Option ℤ := none
  toParam : Option ℤ := none
  windowSize : ℕ := 100
  priceSource : PriceSource := .close
  vwapAnchor : VwapAnchor := .window
  strict : Bool := false
  asOf : Option ℤ := none
  microSummary : Bool := false
  includeIncompleteLastBar : Bool := false

/-- The query sent to `GET /v1/bars`. -/
structure BarsQuery where
  market_id : String
  resolution : Resolution
  count_back : ℕ
  fromTs : ℤ
  toTs : ℤ

/-- Outcome of the bar fetch (`o2RequestRaw`): a parsed `{bars}` payload on an
ok response, a non-ok HTTP response, or a thrown transport error (handled by
the outer `catch` of the orchestrator).  An absent `bars` field is
indistinguishable from an empty list downstream. -/
inductive FetchOutcome where
  | ok (bars : List RawBar)
  | httpErr (statusText : String) (status : ℤ)
  | thrown (message : String)

/-- Snapshot-mode response payload. -/
structure SnapshotOutput where
  marketId : String
  resolution : Resolution
  fromTs : ℤ
  toTs : ℤ
  bars : ℕ
  asOf : ℤ
  currentPrice : JsVal
  currentPriceSource : String
  warnings : List Warning
  indicators : List (String × JsVal)
  derived : List (String × JsVal)
  microSummary : Option MicroSummary

/-- Window-mode response payload. -/
structure WindowOutput where
  marketId : String
  resolution : Resolution
  fromTs : ℤ
  toTs : ℤ
  bars : ℕ
  warnings : List Warning
  timestamps : List ℤ
  indicators : List (String × JsVal)

/-- The `data` payload of a successful tool response. -/
inductive Output where
  | snapshot (o : SnapshotOutput)
  | window (o : WindowOutput)

/-- The payload handed to `toToolResponse`: either `{ok: false, error,
status?}` or `{ok: true, data}` (the MCP transport wrapper is outside the
analytics core). -/
inductive PipelineResult where
  | fail (error : String) (status : Option ℤ)
  | success (data : Output)

/-- JavaScript string-keyed record assignment `rec[k] = v`: update in place
when the key exists, append otherwise (insertion order is preserved). -/
def setKey {α : Type} : List (String × α) → String → α → List (String × α)
  | [], k, v => [(k, v)]
  | (k', v') :: rest, k, v =>
    if k' = k then (k', v) :: rest else (k', v') :: setKey rest k v

/-- `normalizePeriod` duration table with the `|| periods["24h"]` fallback. -/
def periodDuration (period : String) : ℤ :=
  (lookupKey [("1h", (3600000 : ℤ)), ("24h", 86400000), ("7d", 604800000),
     ("30d", 2592000000)] period).getD 86400000

/-- Time-window resolution before `asOf`: explicit `from`/`to` override the
`period` preset ending `now`. -/
def resolvedRange (req : IndicatorsRequest) (now : ℤ) : ℤ × ℤ :=
  match req.fromParam, req.toParam with
  | some f, some t => (f, t)
  | _, _ => (now - periodDuration req.period, now)

/-- The final `to` bound: `asOf` overrides the resolved upper bound. -/
def finalTo (req : IndicatorsRequest) (now : ℤ) : ℤ :=
  match req.asOf with
  | some a => a
  | none => (resolvedRange req now).2

/-- The `AS_OF_TIMESTAMP` warning pushed when `asOf` is provided. -/
def asOfWarning (req : IndicatorsRequest) : List Warning :=
  match req.asOf with
  | some a => [{ code := "AS_OF_TIMESTAMP", details := [("asOf", .num a)] }]
  | none => []

/-- Normalised indicator identifiers of a request. -/
def normalizedOf (req : IndicatorsRequest) : List String :=
  req.indicators.map normalizeIndicatorName

/-- `Math.max(...norm.map(getIndicatorLookback))`.  (For an empty indicator
list the source value is `-Infinity`; every lookback is at least 1, so the
`0` default gives the identical downstream comparisons.) -/
def maxLookbackOf (norm : List String) : ℕ :=
  (norm.map getIndicatorLookback).foldl max 0

/-- `maxLookback + windowSize` in window mode, `maxLookback + 50` otherwise. -/
def requiredBarsOf (req : IndicatorsRequest) : ℕ :=
  match req.mode with
  | .window => maxLookbackOf (normalizedOf req) + req.windowSize
  | .snapshot => maxLookbackOf (normalizedOf req) + 50

/-- The bar query assembled by the orchestrator. -/
def o2Query (req : IndicatorsRequest) (now : ℤ) : BarsQuery :=
  { market_id := req.marketId, resolution := req.resolution,
    count_back := requiredBarsOf req,
    fromTs := (resolvedRange req now).1, toTs := finalTo req now }

/-- Trailing-bar trimming: when the last bar is younger than one resolution
duration and `includeIncompleteLastBar` is not set, drop it and emit
`INCOMPLETE_LAST_BAR` with its timestamp. -/
def trimIncompleteLastBar (includeIncompleteLastBar : Bool)
    (resolution : Resolution) (now : ℤ) (bars : List RawBar) :
    List RawBar × List Warning :=
  if includeIncompleteLastBar = false ∧ 0 < bars.length then
    match bars.getLast? with
    | some lastBar =>
      if resolutionMs resolution ≤ now - lastBar.timestamp then (bars, [])
      else (bars.dropLast,
        [{ code := "INCOMPLETE_LAST_BAR",
           details := [("timestamp", .num lastBar.timestamp)] }])
    | none => (bars, [])
  else (bars, [])

/-- The `INSUFFICIENT_BARS` warning. -/
def insufficientBarsWarning (required available : ℕ) : Warning :=
  { code := "INSUFFICIENT_BARS",
    details := [("required", .num required), ("available", .num available)] }

/-- The lenient per-indicator entry stored when `calculateIndicator` returns
`null`. -/
def insufficientEntry (indicator : String) (barsLen : ℕ) : IndicatorResult :=
  { value := .null, error := some "INSUFFICIENT_BARS",
    meta := { requiredBars := getIndicatorLookback indicator,
              providedBars := barsLen, warmupBars := 0 } }

/-- The per-indicator loop of the orchestrator: compute each normalised
indicator in order, with the strict-mode early fatal returns of the source;
`.error` models a fatal `return` from inside the loop. -/
def computeAllIndicators (talib : TalibOracle) (strict : Bool)
    (options : TransformOptions) (tb : TransformedBars) (barsLen : ℕ) :
    List String → List (String × Option IndicatorResult) →
    Except String (List (String × Option IndicatorResult))
  | [], acc => .ok acc
  | indicator :: rest, acc =>
    match calculateIndicator talib indicator tb options with
    | none =>
      if strict then
        .error ("Failed to calculate indicator: " ++ indicator ++
          ". Insufficient data.")
      else
        computeAllIndicators talib strict options tb barsLen rest
          (setKey acc indicator (some (insufficientEntry indicator barsLen)))
    | some result =>
      if errTruthy result.error then
        if strict then
          .error ("Failed to calculate indicator: " ++ indicator ++ ". Error: " ++
            result.error.getD "")
        else
          computeAllIndicators talib strict options tb barsLen rest
            (setKey acc indicator (some result))
      else
        computeAllIndicators talib strict options tb barsLen rest
          (setKey acc indicator (some result))

/-- Window-mode entry for one computed result:
`result && result.value !== null && !result.error ? result.value : null`. -/
def windowEntry : Option IndicatorResult → JsVal
  | some r => if valueNotNull r.value && !errTruthy r.error then r.value else .null
  | none => .null

/-- `meta` as emitted in the response (fixed fields first, then the
indicator-specific parameters, as in the source literals). -/
def metaToJs (m : Meta) : JsVal :=
  .obj ([("requiredBars", .num m.requiredBars), ("providedBars", .num m.providedBars),
         ("warmupBars", .num m.warmupBars)] ++ m.extra)

/-- `levels` as emitted in the response. -/
def levelsToJs (l : List (String × ℚ)) : JsVal :=
  .obj (l.map fun p => (p.1, .num p.2))

/-- Snapshot-mode formatted entry: `{...(error ? {value: null, error} :
{value, prev, delta}), ...(levels ? {levels} : {}), meta}`. -/
def snapshotEntry (r : IndicatorResult) : JsVal :=
  .obj ((if errTruthy r.error then
          [("value", JsVal.null), ("error", .str (r.error.getD ""))]
        else
          [("value", r.value), ("prev", r.prev), ("delta", r.delta)]) ++
        (match r.levels with
         | some l => [("levels", levelsToJs l)]
         | none => []) ++
        [("meta", metaToJs r.meta)])

/-- `xs.slice(-n)`; `slice(-0)` is `slice(0)` and returns the whole array. -/
def sliceLast {α : Type} (xs : List α) (n : ℕ) : List α :=
  if n = 0 then xs else xs.drop (xs.length - n)

/-- The tail of the orchestrator after the sufficiency policy: decode the
bars, run the indicator loop, and format the snapshot or window payload. -/
def o2_finish (req : IndicatorsRequest) (fromTs toTs : ℤ) (bars : List RawBar)
    (warnings : List Warning) (talib : TalibOracle) : PipelineResult :=
  let transformedBars := transformBarsToArrays bars { priceSource := req.priceSource }
  let currentPrice := lastQ transformedBars.close
  match computeAllIndicators talib req.strict { priceSource := req.priceSource }
      transformedBars bars.length (normalizedOf req) [] with
  | .error msg => .fail msg none
  | .ok calculated =>
    match req.mode with
    | .snapshot =>
      let derived := computeDerivedFields calculated currentPrice
      let formatted := calculated.filterMap fun p =>
        match p.2 with
        | some r => some (p.1, snapshotEntry r)
        | none => none
      .success (.snapshot
        { marketId := req.marketId, resolution := req.resolution,
          fromTs := fromTs, toTs := toTs, bars := bars.length, asOf := toTs,
          currentPrice := currentPrice, currentPriceSource := "last_close",
          warnings := warnings, indicators := formatted, derived := derived,
          microSummary :=
            if req.microSummary then
              some (generateMicroSummary calculated currentPrice)
            else none })
    | .window =>
      let timestamps := sliceLast transformedBars.timestamp req.windowSize
      let windowIndicators := calculated.map fun p => (p.1, windowEntry p.2)
      .success (.window
        { marketId := req.marketId, resolution := req.resolution,
          fromTs := fromTs, toTs := toTs, bars := timestamps.length,
          warnings := warnings, timestamps := timestamps,
          indicators := windowIndicators })

/-- The orchestrator body after the 20-indicator guard: resolve the window,
fetch, trim, enforce the bar-sufficiency policy, then hand over to
`o2_finish`. -/
def o2_indicatorsMain (req : IndicatorsRequest) (now : ℤ)
    (fetch : BarsQuery → FetchOutcome) (talib : TalibOracle) : PipelineResult :=
  match fetch (o2Query req now) with
  | .thrown message => .fail message none
  | .httpErr statusText status => .fail ("API error: " ++ statusText) (some status)
  | .ok rawBars =>
    if rawBars.length = 0 then .fail "No bars returned from API" none
    else
      let trimmed := trimIncompleteLastBar req.includeIncompleteLastBar
        req.resolution now rawBars
      let bars := trimmed.1
      let maxLookback := maxLookbackOf (normalizedOf req)
      let warningsBase := asOfWarning req ++ trimmed.2
      if bars.length < maxLookback then
        if req.strict = true then
          .fail ("Insufficient bars. Required: " ++ toString maxLookback ++
            ", Available: " ++ toString bars.length) none
        else
          o2_finish req (resolvedRange req now).1 (finalTo req now) bars
            (warningsBase ++ [insufficientBarsWarning maxLookback bars.length]) talib
      else
        o2_finish req (resolvedRange req now).1 (finalTo req now) bars
          warningsBase talib

/-- The `o2_indicators` tool: the 20-indicator guard, then the pipeline. -/
def o2_indicators (req : IndicatorsRequest) (now : ℤ)
    (fetch : BarsQuery → FetchOutcome) (talib : TalibOracle) : PipelineResult :=
  if req.indicators.length > 20 then
    .fail "Too many indicators requested. Maximum is 20." none
  else o2_indicatorsMain req now fetch talib

/-- Warnings of either payload shape. -/
def warningsOf : Output → List Warning
  | .snapshot o => o.warnings
  | .window o => o.warnings

/-- Indicator entries of either payload shape. -/
def indicatorsOf : Output → List (String × JsVal)
  | .snapshot o => o.indicators
  | .window o => o.indicators

/-- The result is a success whose payload satisfies `P`. -/
def onSuccess (r : PipelineResult) (P : Output → Prop) : Prop :=
  match r with
  | .success o => P o
  | .fail _ _ => False

/-- An indicator that could not be computed is reported with value `null`:
directly in window mode, and as the formatted
`{value: null, error: "INSUFFICIENT_BARS", meta}` object in snapshot mode. -/
def nullReport (out : Output) (indicator : String) (barsLen : ℕ) : Prop :=
  match out with
  | .window _ => lookupKey (indicatorsOf out) indicator = some JsVal.null
  | .snapshot _ =>
    lookupKey (indicatorsOf out) indicator =
      some (snapshotEntry (insufficientEntry indicator barsLen))

/-- The lenient per-indicator entry actually stored for one identifier: the
computed result, or the insufficient-bars shape when the calculator returns
`null`. -/
def entryFor (talib : TalibOracle) (options : TransformOptions)
    (tb : TransformedBars) (barsLen : ℕ) (indicator : String) : IndicatorResult :=
  match calculateIndicator talib indicator tb options with
  | none => insufficientEntry indicator barsLen
  | some r => r

/-- The record produced by the lenient indicator loop. -/
def buildAll (talib : TalibOracle) (options : TransformOptions)
    (tb : TransformedBars) (barsLen : ℕ) :
    List String → List (String × Option IndicatorResult) →
    List (String × Option IndicatorResult)
  | [], acc => acc
  | indicator :: rest, acc =>
    buildAll talib options tb barsLen rest
      (setKey acc indicator (some (entryFor talib options tb barsLen indicator)))

/-- A talib oracle that always throws. -/
def throwingTalib : TalibOracle := fun _ => .error "talib boom"

/-- A talib oracle returning a one-point `outReal` array for every call. -/
def flatTalib : TalibOracle := fun _ => .ok [("outReal", [5])]

/-- A constant decoded series of `n` bars (price 2, volume 1). -/
def constBars (n : ℕ) : TransformedBars :=
  { open_ := List.replicate n 2, high := List.replicate n 2,
    low := List.replicate n 2, close := List.replicate n 2,
    volume := List.replicate n 1,
    timestamp := (List.range n).map Int.ofNat }

/-- A raw fixed-point bar (scaled by 10^9: price 2, volume 1) at `ts`. -/
def mkRawBar (ts : ℤ) : RawBar :=
  { buy_volume := 500000000, close := 2000000000, high := 2000000000,
    low := 2000000000, open_ := 2000000000, sell_volume := 500000000,
    timestamp := ts }

/-- The decoded series of the three bars served by `fetchC1`. -/
def tbC1 : TransformedBars :=
  { open_ := [2, 2, 2], high := [2, 2, 2], low := [2, 2, 2],
    close := [2, 2, 2], volume := [1, 1, 1],
    timestamp := [1000, 2000, 3000] }

/-- Window-mode request fixture for the vwap indicator. -/
def reqC1 : IndicatorsRequest :=
  { marketId := "m", indicators := ["vwap"], resolution := .r5m,
    mode := .window, includeIncompleteLastBar := true }

/-- Fetch fixture returning three complete bars. -/
def fetchC1 : BarsQuery → FetchOutcome :=
  fun _ => .ok [mkRawBar 1000, mkRawBar 2000, mkRawBar 3000]

/-- Request fixture asking for one indicator whose lookback exceeds the
single available bar. -/
def reqC3 : IndicatorsRequest :=
  { marketId := "m", indicators := ["sma_50"], resolution := .r5m,
    mode := .window, includeIncompleteLastBar := true }

/-- Fetch fixture returning a single bar. -/
def fetchC3 : BarsQuery → FetchOutcome := fun _ => .ok [mkRawBar 1000]

/-- 21-indicator request fixture. -/
def reqC4a : IndicatorsRequest :=
  { marketId := "m", indicators := List.replicate 21 "vwap", resolution := .r5m }

/-- 20-indicator request fixture. -/
def reqC4b : IndicatorsRequest :=
  { marketId := "m", indicators := List.replicate 20 "vwap", resolution := .r5m }

/-- Fetch fixture returning no bars. -/
def fetchEmpty : BarsQuery → FetchOutcome := fun _ => .ok []

/-- An indicator result holding a plain numeric value (metadata immaterial for
the classifier and derived-field fixtures). -/
def mkNumResult (q : ℚ) : IndicatorResult :=
  { value := .num q,
    meta := { requiredBars := 1, providedBars := 1, warmupBars := 0 } }

/-- Classifier fixture: the §8 spec scenario restricted to the trend inputs
(price 110, sma20 105, sma50 100, +DI 30, −DI 20). -/
def indsC7 : List (String × Option IndicatorResult) :=
  [("sma_20", some (mkNumResult 105)), ("sma_50", some (mkNumResult 100)),
   ("plus_di", some (mkNumResult 30)), ("minus_di", some (mkNumResult 20))]

/-- Derived-field fixture with ATR 2 and SMA20 4. -/
def indsC9 : List (String × Option IndicatorResult) :=
  [("atr_14", some (mkNumResult 2)), ("sma_20", some (mkNumResult 4))]

/-- Derived-field counterexample fixture: ATR 1 (positive) and SMA20 0 — a
numeric SMA20 value that JavaScript truthiness rejects. -/
def indsC9cex : List (String × Option IndicatorResult) :=
  [("atr_14", some (mkNumResult 1)), ("sma_20", some (mkNumResult 0))]

theorem jsLowerChar_idem (c : Char) :
    jsLowerChar (jsLowerChar c) = jsLowerChar c := by
  unfold jsLowerChar
  by_cases h : 65 ≤ c.toNat ∧ c.toNat ≤ 90
  · rw [if_pos h]
    have ht : (Char.ofNat (c.toNat + 32)).toNat = c.toNat + 32 := by
      unfold Char.ofNat
      rw [dif_pos (Or.inl (by omega))]
      rfl
    rw [if_neg (by omega)]
  · rw [if_neg h, if_neg h]

theorem jsLowerChar_ne_dash (c : Char) (h : c ≠ '-') : jsLowerChar c ≠ '-' := by
  unfold jsLowerChar
  by_cases hr : 65 ≤ c.toNat ∧ c.toNat ≤ 90
  · rw [if_pos hr]
    intro hc
    have ht : (Char.ofNat (c.toNat + 32)).toNat = c.toNat + 32 := by
      unfold Char.ofNat
      rw [dif_pos (Or.inl (by omega))]
      rfl
    have : (45 : ℕ) = c.toNat + 32 := by rw [← ht, hc]; rfl
    omega
  · rwa [if_neg hr]

theorem jsNormChar_idem (c : Char) :
    jsNormChar (jsNormChar c) = jsNormChar c := by
  unfold jsNormChar
  by_cases h : jsLowerChar c = '-'
  · rw [if_pos h]
    rfl
  · rw [if_neg h, jsLowerChar_idem, if_neg h]

theorem normStr_idem (s : String) : normStr (normStr s) = normStr s := by
  unfold normStr
  refine congrArg String.mk ?_
  show (s.data.map jsNormChar).map jsNormChar = s.data.map jsNormChar
  rw [List.map_map]
  exact List.map_congr_left fun a _ => jsNormChar_idem a

theorem aliasLookup_mem (l : List (String × String)) (s v : String)
    (h : aliasLookup l s = some v) : v ∈ l.map Prod.snd := by
  induction l with
  | nil => simp [aliasLookup] at h
  | cons p rest ih =>
    obtain ⟨k, w⟩ := p
    by_cases hk : s = k
    · simp only [aliasLookup, if_pos hk, Option.some.injEq] at h
      simp [h]
    · simp only [aliasLookup, if_neg hk] at h
      simp [ih h]

theorem alias_values_fixed :
    ∀ v ∈ aliasesList.map Prod.snd, normalizeIndicatorName v = v := by decide

theorem setKey_lookup {α : Type} (acc : List (String × α)) (k k' : String) (v : α) :
    lookupKey (setKey acc k v) k' = if k' = k then some v else lookupKey acc k' := by
  induction acc with
  | nil =>
    by_cases h : k' = k <;> simp [setKey, lookupKey, h]
  | cons p rest ih =>
    obtain ⟨k₀, v₀⟩ := p
    by_cases h₀ : k₀ = k
    · subst h₀
      by_cases h : k' = k₀ <;> simp [setKey, lookupKey, h]
    · by_cases h : k' = k₀
      · subst h
        simp [setKey, lookupKey, h₀]
      · simp [setKey, lookupKey, h₀, h, ih]

theorem buildAll_lookup_notMem (talib : TalibOracle) (options : TransformOptions)
    (tb : TransformedBars) (barsLen : ℕ) (l : List String)
    (acc : List (String × Option IndicatorResult)) (k : String) (hk : k ∉ l) :
    lookupKey (buildAll talib options tb barsLen l acc) k = lookupKey acc k := by
  induction l generalizing acc with
  | nil => rfl
  | cons ind rest ih =>
    have hkr : k ∉ rest := fun h => hk (List.mem_cons_of_mem _ h)
    have hki : k ≠ ind := fun h => hk (h ▸ List.mem_cons_self ind rest)
    rw [buildAll, ih _ hkr, setKey_lookup, if_neg hki]

theorem buildAll_lookup (talib : TalibOracle) (options : TransformOptions)
    (tb : TransformedBars) (barsLen : ℕ) (l : List String)
    (acc : List (String × Option IndicatorResult)) (k : String) (hk : k ∈ l) :
    lookupKey (buildAll talib options tb barsLen l acc) k =
      some (some (entryFor talib options tb barsLen k)) := by
  induction l generalizing acc with
  | nil => cases hk
  | cons ind rest ih =>
    by_cases hkr : k ∈ rest
    · rw [buildAll, ih _ hkr]
    · have hki : k = ind := by
        rcases List.mem_cons.mp hk with h | h
        · exact h
        · exact absurd h hkr
      subst hki
      rw [buildAll, buildAll_lookup_notMem _ _ _ _ _ _ _ hkr, setKey_lookup,
        if_pos rfl]

theorem computeAll_lenient (talib : TalibOracle) (options : TransformOptions)
    (tb : TransformedBars) (barsLen : ℕ) (l : List String)
    (acc : List (String × Option IndicatorResult)) :
    computeAllIndicators talib false options tb barsLen l acc =
      .ok (buildAll talib options tb barsLen l acc) := by
  induction l generalizing acc with
  | nil => rfl
  | cons ind rest ih =>
    rw [computeAllIndicators, buildAll]
    cases h : calculateIndicator talib ind tb options with
    | none =>
      simp only [Bool.false_eq_true, if_false]
      rw [ih]
      congr 2
      rw [entryFor, h]
    | some r =>
      have he : entryFor talib options tb barsLen ind = r := by rw [entryFor, h]
      rw [he]
      by_cases herr : errTruthy r.error = true
      · simp only [herr, if_true, Bool.false_eq_true, if_false]
        exact ih _
      · simp only [Bool.not_eq_true] at herr
        simp only [herr, Bool.false_eq_true, if_false]
        exact ih _

theorem getLast?_cons_of_ne_nil {α : Type} (a : α) (l : List α) (h : l ≠ []) :
    (a :: l).getLast? = l.getLast? := by
  cases l with
  | nil => exact absurd rfl h
  | cons b t => rfl

theorem vwapLoopAux_ne_nil (bars : TransformedBars) (fuel i : ℕ) (pv cv : ℚ)
    (h : 0 < fuel) : vwapLoopAux bars fuel i pv cv ≠ [] := by
  cases fuel with
  | zero => omega
  | succ f => simp [vwapLoopAux]

theorem vwapLoopAux_getLast (bars : TransformedBars) :
    ∀ (fuel i : ℕ) (pv cv : ℚ), 0 < fuel →
      (vwapLoopAux bars fuel i pv cv).getLast? =
        some (if 0 < cv + sumVolAux bars fuel i then
                (pv + sumTPVAux bars fuel i) / (cv + sumVolAux bars fuel i)
              else typicalPrice bars (i + fuel - 1)) := by
  intro fuel
  induction fuel with
  | zero => intro i pv cv h; omega
  | succ f ih =>
    intro i pv cv _
    cases f with
    | zero =>
      show (vwapLoopAux bars 1 i pv cv).getLast? = _
      simp only [vwapLoopAux, sumVolAux, sumTPVAux, add_zero, List.getLast?]
      rfl
    | succ f' =>
      have hstep : vwapLoopAux bars (f' + 1 + 1) i pv cv =
          (if 0 < cv + jsIdx bars.volume i then
             (pv + typicalPrice bars i * jsIdx bars.volume i) /
               (cv + jsIdx bars.volume i)
           else typicalPrice bars i) ::
          vwapLoopAux bars (f' + 1) (i + 1)
            (pv + typicalPrice bars i * jsIdx bars.volume i)
            (cv + jsIdx bars.volume i) := rfl
      rw [hstep, getLast?_cons_of_ne_nil _ _
          (vwapLoopAux_ne_nil bars (f' + 1) (i + 1) _ _ (Nat.succ_pos f')),
        ih (i + 1) _ _ (Nat.succ_pos f')]
      have hv : sumVolAux bars (f' + 1 + 1) i =
          jsIdx bars.volume i + sumVolAux bars (f' + 1) (i + 1) := rfl
      have hp : sumTPVAux bars (f' + 1 + 1) i =
          typicalPrice bars i * jsIdx bars.volume i +
            sumTPVAux bars (f' + 1) (i + 1) := rfl
      rw [hv, hp]
      refine congrArg some (if_congr (by rw [add_assoc]) (by rw [add_assoc, add_assoc]) ?_)
      have h3 : i + 1 + (f' + 1) - 1 = i + (f' + 1 + 1) - 1 := by omega
      rw [h3]

theorem vwapValues_getLast (bars : TransformedBars)
    (h : 0 < bars.close.length) :
    (vwapValues bars).getLast? =
      some (if 0 < sumVol bars then sumTPV bars / sumVol bars
            else typicalPrice bars (bars.close.length - 1)) := by
  have := vwapLoopAux_getLast bars bars.close.length 0 0 0 h
  rw [vwapValues, this]
  simp [sumVol, sumTPV]

/-- C10: indicator-name normalization is idempotent — applying
`normalizeIndicatorName` to its own output returns that output unchanged, for
every input string (alias values and already-normalized names are fixed
points). -/
theorem claim_C10_normalize_idempotent (s : String) :
    normalizeIndicatorName (normalizeIndicatorName s) =
      normalizeIndicatorName s := by
  have hs : normalizeIndicatorName s =
      match aliasLookup aliasesList (normStr s) with
      | some v => v
      | none => normStr s := rfl
  cases h : aliasLookup aliasesList (normStr s) with
  | some v =>
    rw [hs, h]
    exact alias_values_fixed v (aliasLookup_mem _ _ _ h)
  | none =>
    rw [hs, h]
    have h2 : aliasLookup aliasesList (normStr (normStr s)) = none := by
      rw [normStr_idem]
      exact h
    show (match aliasLookup aliasesList (normStr (normStr s)) with
          | some v => v
          | none => normStr (normStr s)) = normStr s
    rw [h2, normStr_idem]

/-- C10 witness: the theorem applied at a concrete input. -/
theorem claim_C10_witness :
    normalizeIndicatorName (normalizeIndicatorName "ATR-14") =
      normalizeIndicatorName "ATR-14" :=
  claim_C10_normalize_idempotent "ATR-14"

/-- C2 (as stated, false on the code): the lookback resolver returns the
constants 14 / 20 / 14 for every `atr_P` / `cci_P` / `mfi_P`, ignoring the
explicit period suffix `P`, while the calculator itself parses `P` — for
`atr_20` the resolver answers 14 bars yet the calculator returns `null`
(insufficient) with 14 bars and reports `requiredBars = 20` when it does
compute. -/
theorem claim_C2_lookback_ignores_period :
    getIndicatorLookback "atr_20" = 14 ∧
    getIndicatorLookback "cci_14" = 20 ∧
    getIndicatorLookback "mfi_20" = 14 ∧
    calculateIndicator flatTalib "atr_20" (constBars 14) {} = none ∧
    (calculateIndicator flatTalib "atr_20" (constBars 20) {}).map
      (fun r => r.meta.requiredBars) = some 20 :=
  ⟨by decide, by decide, by decide, rfl, rfl⟩

/-- C5: with `includeIncompleteLastBar = false` and a non-empty bar list, the
trailing bar is dropped with an `INCOMPLETE_LAST_BAR{timestamp}` warning
exactly when `now − lastBar.timestamp` is strictly below the resolution
duration; otherwise the bars are returned unchanged with no warning. -/
theorem claim_C5_trailing_bar_trim (resolution : Resolution) (now : ℤ)
    (bars : List RawBar) (b : RawBar) (hlast : bars.getLast? = some b) :
    (now - b.timestamp < resolutionMs resolution →
      trimIncompleteLastBar false resolution now bars =
        (bars.dropLast,
         [{ code := "INCOMPLETE_LAST_BAR",
            details := [("timestamp", .num b.timestamp)] }])) ∧
    (resolutionMs resolution ≤ now - b.timestamp →
      trimIncompleteLastBar false resolution now bars = (bars, [])) := by
  have hne : bars ≠ [] := by
    intro h
    rw [h] at hlast
    exact Option.noConfusion hlast
  have hlen : 0 < bars.length := List.length_pos.mpr hne
  unfold trimIncompleteLastBar
  rw [if_pos ⟨rfl, hlen⟩, hlast]
  dsimp only
  constructor
  · intro h
    rw [if_neg (by omega)]
  · intro h
    rw [if_pos h]

/-- C5 witness: the §8 spec scenario — resolution 5m, last bar 200000 ms old
(younger than the 300000 ms bar duration), so the bar is dropped and the
warning is emitted. -/
theorem claim_C5_witness :
    (1000000 : ℤ) - (mkRawBar 800000).timestamp < resolutionMs .r5m ∧
    trimIncompleteLastBar false .r5m 1000000 [mkRawBar 800000] =
      ([], [{ code := "INCOMPLETE_LAST_BAR",
              details := [("timestamp", .num 800000)] }]) :=
  ⟨by decide,
   (claim_C5_trailing_bar_trim .r5m 1000000 [mkRawBar 800000] (mkRawBar 800000)
     rfl).1 (by decide)⟩

/-- C4: more than 20 requested indicators produce the fatal rejection before
any other work (the result does not depend on the fetch or talib oracles),
while exactly 20 indicators pass the guard into the main pipeline body. -/
theorem claim_C4_indicator_count_guard (req : IndicatorsRequest) (now : ℤ)
    (fetch₁ fetch₂ : BarsQuery → FetchOutcome) (talib₁ talib₂ : TalibOracle) :
    (req.indicators.length > 20 →
      o2_indicators req now fetch₁ talib₁ =
        .fail "Too many indicators requested. Maximum is 20." none ∧
      o2_indicators req now fetch₁ talib₁ = o2_indicators req now fetch₂ talib₂) ∧
    (req.indicators.length = 20 →
      o2_indicators req now fetch₁ talib₁ =
        o2_indicatorsMain req now fetch₁ talib₁) := by
  constructor
  · intro h
    unfold o2_indicators
    rw [if_pos h, if_pos h]
    exact ⟨rfl, rfl⟩
  · intro h
    unfold o2_indicators
    rw [if_neg (by omega)]

/-- C4 witness: 21 indicators are rejected identically under two different
oracle environments; 20 indicators reach the pipeline body. -/
theorem claim_C4_witness :
    o2_indicators reqC4a 0 fetchEmpty throwingTalib =
      .fail "Too many indicators requested. Maximum is 20." none ∧
    o2_indicators reqC4a 0 fetchEmpty throwingTalib =
      o2_indicators reqC4a 0 fetchC1 flatTalib ∧
    o2_indicators reqC4b 0 fetchEmpty throwingTalib =
      o2_indicatorsMain reqC4b 0 fetchEmpty throwingTalib :=
  ⟨((claim_C4_indicator_count_guard reqC4a 0 fetchEmpty fetchC1 throwingTalib
      flatTalib).1 (by decide)).1,
   ((claim_C4_indicator_count_guard reqC4a 0 fetchEmpty fetchC1 throwingTalib
      flatTalib).1 (by decide)).2,
   (claim_C4_indicator_count_guard reqC4b 0 fetchEmpty fetchC1 throwingTalib
      flatTalib).2 (by decide)⟩

/-- C8: `calculateIndicator` never propagates a thrown error — whatever the
talib oracle does, a throw inside the body is converted into
`{value: null, error, meta}` with the populated meta object, and under the
lenient (non-strict) orchestrator loop a per-indicator failure can never
produce the fatal early return. -/
theorem claim_C8_no_exception_propagation (talib : TalibOracle)
    (indicator : String) (bars : TransformedBars) (options : TransformOptions)
    (e : String) :
    (calcBody talib indicator bars options = .error e →
      calculateIndicator talib indicator bars options =
        some { value := .null, error := some e,
               meta := { requiredBars := getIndicatorLookback indicator,
                         providedBars := bars.close.length, warmupBars := 0 } }) ∧
    (∀ (barsLen : ℕ) (l : List String)
        (acc : List (String × Option IndicatorResult)) (msg : String),
      computeAllIndicators talib false options bars barsLen l acc ≠
        .error msg) := by
  constructor
  · intro h
    unfold calculateIndicator
    rw [h]
  · intro barsLen l acc msg hc
    rw [computeAll_lenient] at hc
    exact Except.noConfusion hc

/-- C8 witness: a talib oracle that always throws is caught for `sma_20` over
20 bars and reported as a null-valued, error-carrying result. -/
theorem claim_C8_witness :
    calculateIndicator throwingTalib "sma_20" (constBars 20) {} =
      some { value := .null, error := some "talib boom",
             meta := { requiredBars := 20, providedBars := 20,
                       warmupBars := 0 } } :=
  (claim_C8_no_exception_propagation throwingTalib "sma_20" (constBars 20) {}
    "talib boom").1 rfl

/-- C6: the vwap value over a non-empty decoded window with positive total
volume equals the cumulative `Σ(typicalPrice·volume) / Σvolume` anchored at
the start of the fetched window; for a single-bar window it equals the
typical price of the first bar unconditionally; and the whole pipeline output is
independent of the `vwapAnchor` request option. -/
theorem claim_C6_vwap_window_anchored (talib : TalibOracle)
    (options : TransformOptions) (bars : TransformedBars)
    (req : IndicatorsRequest) (now : ℤ) (fetch : BarsQuery → FetchOutcome)
    (talib₂ : TalibOracle) (anchor : VwapAnchor) :
    (0 < bars.close.length → 0 < sumVol bars →
      (calculateIndicator talib "vwap" bars options).map (fun r => r.value) =
        some (.num (sumTPV bars / sumVol bars))) ∧
    (bars.close.length = 1 →
      (calculateIndicator talib "vwap" bars options).map (fun r => r.value) =
        some (.num (typicalPrice bars 0))) ∧
    o2_indicators { req with vwapAnchor := anchor } now fetch talib₂ =
      o2_indicators req now fetch talib₂ := by
  have hcb : calcBody talib "vwap" bars options =
      (if bars.close.length < 1 then .ok none
       else .ok (some
         { value := lastQ (vwapValues bars),
           prev := prevOrNull (vwapValues bars),
           delta := deltaOrNull (vwapValues bars),
           meta := { requiredBars := 1,
                     providedBars := bars.close.length,
                     warmupBars := 0,
                     extra := [("anchor", .str "window")] } })) := rfl
  have hb : calculateIndicator talib "vwap" bars options =
      (if bars.close.length < 1 then none
       else some { value := lastQ (vwapValues bars),
                   prev := prevOrNull (vwapValues bars),
                   delta := deltaOrNull (vwapValues bars),
                   meta := { requiredBars := 1,
                             providedBars := bars.close.length,
                             warmupBars := 0,
                             extra := [("anchor", .str "window")] } }) := by
    unfold calculateIndicator
    rw [hcb]
    by_cases h : bars.close.length < 1
    · rw [if_pos h, if_pos h]
    · rw [if_neg h, if_neg h]
  refine ⟨?_, ?_, ?_⟩
  · intro hlen hvol
    rw [hb, if_neg (by omega)]
    show some (lastQ (vwapValues bars)) = some (.num (sumTPV bars / sumVol bars))
    unfold lastQ
    rw [vwapValues_getLast bars hlen]
    dsimp only
    rw [if_pos hvol]
  · intro hlen
    rw [hb, if_neg (by omega)]
    show some (lastQ (vwapValues bars)) = some (.num (typicalPrice bars 0))
    unfold lastQ
    rw [vwapValues_getLast bars (by omega)]
    dsimp only
    have hv : sumVol bars = jsIdx bars.volume 0 := by
      unfold sumVol
      rw [hlen]
      show jsIdx bars.volume 0 + 0 = jsIdx bars.volume 0
      rw [add_zero]
    have hp : sumTPV bars = typicalPrice bars 0 * jsIdx bars.volume 0 := by
      unfold sumTPV
      rw [hlen]
      show typicalPrice bars 0 * jsIdx bars.volume 0 + 0 = _
      rw [add_zero]
    rw [hlen, hv, hp]
    by_cases h0 : 0 < jsIdx bars.volume 0
    · rw [if_pos h0, mul_div_cancel_right₀ _ (ne_of_gt h0)]
    · rw [if_neg h0]
  · cases req
    rfl

/-- C6 witness: the theorem applied to a concrete series. -/
theorem claim_C6_witness :
    (calculateIndicator throwingTalib "vwap" (constBars 1) {}).map
      (fun r => r.value) = some (.num (typicalPrice (constBars 1) 0)) ∧
    o2_indicators { reqC1 with vwapAnchor := .session } 0 fetchEmpty flatTalib =
      o2_indicators reqC1 0 fetchEmpty flatTalib :=
  ⟨(claim_C6_vwap_window_anchored throwingTalib {} (constBars 1) reqC1 0
      fetchEmpty flatTalib .session).2.1 (by decide),
   (claim_C6_vwap_window_anchored throwingTalib {} (constBars 1) reqC1 0
      fetchEmpty flatTalib .session).2.2⟩

/-- C7: when sma20, sma50, +DI and −DI are all numeric, `trendBias` follows
the two-step cascade — SMA alignment sets an initial bias, then the DI
comparison moves it at most one step (never directly between `bullish` and
`bearish`). -/
theorem claim_C7_trend_bias_cascade
    (indicators : List (String × Option IndicatorResult)) (c a b p m : ℚ)
    (r20 r50 rp rm : IndicatorResult)
    (h20 : getInd indicators "sma_20" = some r20) (hv20 : r20.value = .num a)
    (h50 : getInd indicators "sma_50" = some r50) (hv50 : r50.value = .num b)
    (hdp : getInd indicators "plus_di" = some rp) (hvp : rp.value = .num p)
    (hdm : getInd indicators "minus_di" = some rm) (hvm : rm.value = .num m) :
    ((generateMicroSummary indicators (.num c)).trendBias =
      (if p > m then
         match (if c > a ∧ a > b then TrendBias.bullish
                else if c < a ∧ a < b then TrendBias.bearish
                else TrendBias.neutral) with
         | .bearish => .neutral
         | .neutral => .bullish
         | .bullish => .bullish
       else
         match (if c > a ∧ a > b then TrendBias.bullish
                else if c < a ∧ a < b then TrendBias.bearish
                else TrendBias.neutral) with
         | .bullish => .neutral
         | .neutral => .bearish
         | .bearish => .bearish)) ∧
    ((c > a ∧ a > b) →
      (generateMicroSummary indicators (.num c)).trendBias ≠ .bearish) ∧
    ((c < a ∧ a < b) →
      (generateMicroSummary indicators (.num c)).trendBias ≠ .bullish) := by
  have hbias : (generateMicroSummary indicators (.num c)).trendBias =
      (diTrendStep (smaTrendStep (.num c) (getInd indicators "sma_20")
        (getInd indicators "sma_50")).1 (getInd indicators "plus_di")
        (getInd indicators "minus_di")
        (smaTrendStep (.num c) (getInd indicators "sma_20")
          (getInd indicators "sma_50")).2).1 := rfl
  have hbase : (smaTrendStep (JsVal.num c) (some r20) (some r50)).1 =
      (if c > a ∧ a > b then TrendBias.bullish
       else if c < a ∧ a < b then TrendBias.bearish
       else TrendBias.neutral) := by
    unfold smaTrendStep
    dsimp only
    rw [hv20, hv50]
    simp only [isNumber, Bool.and_self, if_true, jsGt, jsLt, Bool.and_eq_true,
      decide_eq_true_eq]
    split_ifs with h1 h2 <;> rfl
  have hdi : ∀ (bias : TrendBias) (tags : List String),
      (diTrendStep bias (some rp) (some rm) tags).1 =
        (if p > m then
           match bias with
           | .bearish => .neutral
           | .neutral => .bullish
           | .bullish => .bullish
         else
           match bias with
           | .bullish => .neutral
           | .neutral => .bearish
           | .bearish => .bearish) := by
    intro bias tags
    unfold diTrendStep
    dsimp only
    rw [hvp, hvm]
    simp only [isNumber, Bool.and_self, if_true, jsGt, Bool.and_eq_true,
      decide_eq_true_eq]
    split_ifs with h1 <;> rfl
  have hmain : (generateMicroSummary indicators (.num c)).trendBias =
      (if p > m then
         match (if c > a ∧ a > b then TrendBias.bullish
                else if c < a ∧ a < b then TrendBias.bearish
                else TrendBias.neutral) with
         | .bearish => .neutral
         | .neutral => .bullish
         | .bullish => .bullish
       else
         match (if c > a ∧ a > b then TrendBias.bullish
                else if c < a ∧ a < b then TrendBias.bearish
                else TrendBias.neutral) with
         | .bullish => .neutral
         | .neutral => .bearish
         | .bearish => .bearish) := by
    rw [hbias, h20, h50, hdp, hdm, hdi, hbase]
  refine ⟨hmain, ?_, ?_⟩
  · intro hup
    rw [hmain]
    by_cases hgt : p > m <;> simp [hup, hgt]
  · intro hdn
    have hnu : ¬ (c > a ∧ a > b) := fun hx => absurd hdn.1 (lt_asymm hx.1)
    rw [hmain]
    by_cases hgt : p > m <;> simp [hnu, hdn, hgt]

/-- C7 witness: the §8 scenario (price 110, sma20 105, sma50 100,
+DI 30 > −DI 20) classifies as bullish. -/
theorem claim_C7_witness :
    (generateMicroSummary indsC7 (.num 110)).trendBias = .bullish := by
  have h := (claim_C7_trend_bias_cascade indsC7 110 105 100 30 20
    (mkNumResult 105) (mkNumResult 100) (mkNumResult 30) (mkNumResult 20)
    rfl rfl rfl rfl rfl rfl rfl rfl).1
  rw [h]
  norm_num

/-- C9 (amended): `dist_sma20_atr` is emitted, with value
`(currentPrice − sma20) / atr14`, exactly when the atr_14 value is a number
greater than 0 and the sma_20 value is a nonzero number — JavaScript
truthiness also rejects a numeric 0 — and analogously for `dist_vwap_atr`
with the vwap value; otherwise the field is silently omitted (the function is
total, hence never throws). -/
theorem claim_C9_derived_fields_amended
    (indicators : List (String × Option IndicatorResult)) (c : ℚ) :
    (∀ (ra rs : IndicatorResult) (a sv : ℚ),
      getInd indicators "atr_14" = some ra → ra.value = .num a → 0 < a →
      getInd indicators "sma_20" = some rs → rs.value = .num sv → sv ≠ 0 →
      lookupKey (computeDerivedFields indicators (.num c)) "dist_sma20_atr" =
        some (.num ((c - sv) / a))) ∧
    (∀ (ra rv : IndicatorResult) (a vv : ℚ),
      getInd indicators "atr_14" = some ra → ra.value = .num a → 0 < a →
      getInd indicators "vwap" = some rv → rv.value = .num vv → vv ≠ 0 →
      lookupKey (computeDerivedFields indicators (.num c)) "dist_vwap_atr" =
        some (.num ((c - vv) / a))) ∧
    (numPosGuard (getInd indicators "atr_14") = false →
      computeDerivedFields indicators (.num c) = []) ∧
    (numTruthyGuard (getInd indicators "sma_20") = false →
      lookupKey (computeDerivedFields indicators (.num c)) "dist_sma20_atr" =
        none) ∧
    (numTruthyGuard (getInd indicators "vwap") = false →
      lookupKey (computeDerivedFields indicators (.num c)) "dist_vwap_atr" =
        none) := by
  refine ⟨?_, ?_, ?_, ?_, ?_⟩
  · intro ra rs a sv hra hva ha hrs hvs hs
    have hpos : numPosGuard (getInd indicators "atr_14") = true := by
      rw [hra]
      simp [numPosGuard, hva, truthy, isNumber, jsGt, ne_of_gt ha, ha]
    have hsma : numTruthyGuard (getInd indicators "sma_20") = true := by
      rw [hrs]
      simp [numTruthyGuard, hvs, truthy, isNumber, hs]
    unfold computeDerivedFields
    dsimp only
    rw [hpos, if_pos rfl, hsma, if_pos rfl]
    have hdiv : jsDiv (jsSub (JsVal.num c) (numOf (getInd indicators "sma_20")))
        (numOf (getInd indicators "atr_14")) = .num ((c - sv) / a) := by
      rw [hra, hrs]
      simp [numOf, hva, hvs, jsSub, jsDiv, ne_of_gt ha]
    rw [hdiv]
    rfl
  · intro ra rv a vv hra hva ha hrv hvv hv
    have hpos : numPosGuard (getInd indicators "atr_14") = true := by
      rw [hra]
      simp [numPosGuard, hva, truthy, isNumber, jsGt, ne_of_gt ha, ha]
    have hvw : numTruthyGuard (getInd indicators "vwap") = true := by
      rw [hrv]
      simp [numTruthyGuard, hvv, truthy, isNumber, hv]
    unfold computeDerivedFields
    dsimp only
    rw [hpos, if_pos rfl, hvw, if_pos rfl]
    have hdiv : jsDiv (jsSub (JsVal.num c) (numOf (getInd indicators "vwap")))
        (numOf (getInd indicators "atr_14")) = .num ((c - vv) / a) := by
      rw [hra, hrv]
      simp [numOf, hva, hvv, jsSub, jsDiv, ne_of_gt ha]
    rw [hdiv]
    cases hsg : numTruthyGuard (getInd indicators "sma_20") with
    | false => rw [if_neg Bool.false_ne_true]; rfl
    | true => rw [if_pos rfl]; rfl
  · intro hneg
    unfold computeDerivedFields
    dsimp only
    rw [hneg, if_neg Bool.false_ne_true]
  · intro hneg
    unfold computeDerivedFields
    dsimp only
    rw [hneg]
    cases hpos : numPosGuard (getInd indicators "atr_14") with
    | false => rw [if_neg Bool.false_ne_true]; rfl
    | true =>
      rw [if_pos rfl, if_neg Bool.false_ne_true]
      cases hvg : numTruthyGuard (getInd indicators "vwap") with
      | false => rw [if_neg Bool.false_ne_true]; rfl
      | true => rw [if_pos rfl]; rfl
  · intro hneg
    unfold computeDerivedFields
    dsimp only
    rw [hneg]
    cases hpos : numPosGuard (getInd indicators "atr_14") with
    | false => rw [if_neg Bool.false_ne_true]; rfl
    | true =>
      rw [if_pos rfl, if_neg Bool.false_ne_true]
      cases hsg : numTruthyGuard (getInd indicators "sma_20") with
      | false => rw [if_neg Bool.false_ne_true]; rfl
      | true => rw [if_pos rfl]; rfl

/-- C9 counterexample: with atr_14 = 1 (a number greater than 0) and
sma_20 = 0 (a number), the claim as stated requires
`dist_sma20_atr = (5 − 0)/1` to be present at current price 5, but the code
omits the field because the numeric value 0 is falsy. -/
theorem claim_C9_counterexample :
    getInd indsC9cex "atr_14" = some (mkNumResult 1) ∧
    getInd indsC9cex "sma_20" = some (mkNumResult 0) ∧
    isNumber (mkNumResult 0).value = true ∧
    jsGt (mkNumResult 1).value (.num 0) = true ∧
    lookupKey (computeDerivedFields indsC9cex (.num 5)) "dist_sma20_atr" =
      none :=
  ⟨rfl, rfl, rfl, by decide, rfl⟩

/-- C9 witness: the amended theorem applied to a concrete record (atr 2,
sma20 4, current price 5). -/
theorem claim_C9_witness :
    lookupKey (computeDerivedFields indsC9 (.num 5)) "dist_sma20_atr" =
      some (.num ((5 - 4) / 2)) :=
  (claim_C9_derived_fields_amended indsC9 5).1 (mkNumResult 2) (mkNumResult 4)
    2 4 rfl rfl (by decide) rfl rfl (by decide)

theorem onSuccess_mono (r : PipelineResult) (P Q : Output → Prop)
    (h : onSuccess r P) (himp : ∀ o, P o → Q o) : onSuccess r Q := by
  cases r with
  | fail e st => exact h.elim
  | success o => exact himp o h

theorem setKey_forall {α : Type} (P : α → Prop) (acc : List (String × α))
    (k : String) (v : α) (hacc : ∀ p ∈ acc, P p.2) (hv : P v) :
    ∀ p ∈ setKey acc k v, P p.2 := by
  induction acc with
  | nil =>
    intro p hp
    rcases List.mem_singleton.mp hp with h
    rw [h]
    exact hv
  | cons q rest ih =>
    obtain ⟨k₀, v₀⟩ := q
    intro p hp
    by_cases h₀ : k₀ = k
    · rw [setKey, if_pos h₀] at hp
      rcases List.mem_cons.mp hp with h | h
      · rw [h]
        exact hv
      · exact hacc p (List.mem_cons_of_mem _ h)
    · rw [setKey, if_neg h₀] at hp
      rcases List.mem_cons.mp hp with h | h
      · rw [h]
        exact hacc (k₀, v₀) (List.mem_cons_self _ _)
      · exact ih (fun q hq => hacc q (List.mem_cons_of_mem _ hq)) p h

theorem buildAll_values_some (talib : TalibOracle) (options : TransformOptions)
    (tb : TransformedBars) (barsLen : ℕ) (l : List String)
    (acc : List (String × Option IndicatorResult))
    (hacc : ∀ p ∈ acc, Option.isSome p.2 = true) :
    ∀ p ∈ buildAll talib options tb barsLen l acc, Option.isSome p.2 = true := by
  induction l generalizing acc with
  | nil => exact hacc
  | cons ind rest ih =>
    rw [buildAll]
    exact ih _ (setKey_forall (fun v => Option.isSome v = true) _ _ _ hacc rfl)

theorem lookupKey_map_window (l : List (String × Option IndicatorResult))
    (k : String) :
    lookupKey (l.map fun p => (p.1, windowEntry p.2)) k =
      (lookupKey l k).map windowEntry := by
  induction l with
  | nil => rfl
  | cons p rest ih =>
    obtain ⟨k₀, v₀⟩ := p
    by_cases h : k = k₀
    · simp [lookupKey, h]
    · simp [lookupKey, h, ih]

theorem lookupKey_filterMap_snapshot (l : List (String × Option IndicatorResult))
    (k : String) (hall : ∀ p ∈ l, Option.isSome p.2 = true) :
    lookupKey (l.filterMap fun p =>
        match p.2 with
        | some r => some (p.1, snapshotEntry r)
        | none => none) k =
      (match lookupKey l k with
       | some (some r) => some (snapshotEntry r)
       | some none => none
       | none => none) := by
  induction l with
  | nil => rfl
  | cons p rest ih =>
    obtain ⟨k₀, v₀⟩ := p
    have hv₀ : Option.isSome v₀ = true := hall (k₀, v₀) (List.mem_cons_self _ _)
    obtain ⟨r₀, hr₀⟩ := Option.isSome_iff_exists.mp hv₀
    subst hr₀
    have ihr := ih fun q hq => hall q (List.mem_cons_of_mem _ hq)
    by_cases h : k = k₀
    · simp [lookupKey, h]
    · simp only [List.filterMap_cons]
      simp [lookupKey, h, ihr]

/-- C3: after trailing-bar trimming, when the remaining bar count is strictly
below `maxLookback`: under `strict = true` the request fails fatally with the
insufficient-bars message and produces no indicator output, while under
`strict = false` it succeeds, attaches the `INSUFFICIENT_BARS` warning with
the required and available counts, and reports every indicator that cannot be
computed with value `null`. -/
theorem claim_C3_insufficient_bars_policy (req : IndicatorsRequest) (now : ℤ)
    (fetch : BarsQuery → FetchOutcome) (talib : TalibOracle)
    (rawBars : List RawBar)
    (hcount : ¬ req.indicators.length > 20)
    (hfetch : fetch (o2Query req now) = .ok rawBars)
    (hne : ¬ rawBars.length = 0)
    (hins : (trimIncompleteLastBar req.includeIncompleteLastBar req.resolution
        now rawBars).1.length < maxLookbackOf (normalizedOf req)) :
    (req.strict = true →
      o2_indicators req now fetch talib =
        .fail ("Insufficient bars. Required: " ++
          toString (maxLookbackOf (normalizedOf req)) ++ ", Available: " ++
          toString (trimIncompleteLastBar req.includeIncompleteLastBar
            req.resolution now rawBars).1.length) none) ∧
    (req.strict = false →
      onSuccess (o2_indicators req now fetch talib) (fun out =>
        insufficientBarsWarning (maxLookbackOf (normalizedOf req))
          (trimIncompleteLastBar req.includeIncompleteLastBar req.resolution
            now rawBars).1.length ∈ warningsOf out ∧
        ∀ ind ∈ normalizedOf req,
          calculateIndicator talib ind
            (transformBarsToArrays (trimIncompleteLastBar
              req.includeIncompleteLastBar req.resolution now rawBars).1
              { priceSource := req.priceSource })
            { priceSource := req.priceSource } = none →
          nullReport out ind (trimIncompleteLastBar
            req.includeIncompleteLastBar req.resolution now
            rawBars).1.length)) := by
  have hpipe : o2_indicators req now fetch talib =
      o2_indicatorsMain req now fetch talib := by
    unfold o2_indicators
    rw [if_neg hcount]
  constructor
  · intro hstrict
    rw [hpipe]
    unfold o2_indicatorsMain
    rw [hfetch]
    dsimp only
    rw [if_neg hne]
    rw [if_pos hins, if_pos hstrict]
  · intro hstrict
    rw [hpipe]
    unfold o2_indicatorsMain
    rw [hfetch]
    dsimp only
    rw [if_neg hne]
    rw [if_pos hins, hstrict, if_neg Bool.false_ne_true]
    unfold o2_finish
    dsimp only
    rw [hstrict, computeAll_lenient]
    dsimp only
    cases hmode : req.mode with
    | snapshot =>
      dsimp only [onSuccess]
      constructor
      · exact List.mem_append_right _ (List.mem_singleton.mpr rfl)
      · intro ind hind hcalc
        unfold nullReport
        dsimp only [indicatorsOf]
        rw [lookupKey_filterMap_snapshot _ _
          (buildAll_values_some _ _ _ _ _ _ (by intro p hp; cases hp))]
        rw [buildAll_lookup _ _ _ _ _ _ _ hind]
        dsimp only
        rw [entryFor, hcalc]
    | window =>
      dsimp only [onSuccess]
      constructor
      · exact List.mem_append_right _ (List.mem_singleton.mpr rfl)
      · intro ind hind hcalc
        unfold nullReport
        dsimp only [indicatorsOf]
        rw [lookupKey_map_window, buildAll_lookup _ _ _ _ _ _ _ hind]
        dsimp only [Option.map_some']
        rw [entryFor, hcalc]
        rfl

/-- C3 witness: a lenient one-bar window request for `sma_50` succeeds with
the `INSUFFICIENT_BARS` warning (required 50, available 1) and a null-valued
indicator entry. -/
theorem claim_C3_witness :
    onSuccess (o2_indicators reqC3 5000000 fetchC3 throwingTalib) (fun out =>
      insufficientBarsWarning 50 1 ∈ warningsOf out ∧
      nullReport out "sma_50" 1) := by
  have h := (claim_C3_insufficient_bars_policy reqC3 5000000 fetchC3
    throwingTalib [mkRawBar 1000] (by decide) rfl (by decide) (by decide)).2 rfl
  refine onSuccess_mono _ _ _ h ?_
  intro o ho
  exact ⟨ho.1, ho.2 "sma_50" (by decide) rfl⟩

/-- C1 (the code violates the documented window shape): a successful
window-mode request maps the requested indicator to its single latest scalar
value — here `vwap ↦ 2` — not to an array of per-bar values aligned with the
three returned timestamps. -/
theorem claim_C1_window_returns_scalar :
    o2_indicators reqC1 2000000000 fetchC1 throwingTalib =
      .success (.window
        { marketId := "m", resolution := .r5m, fromTs := 1913600000,
          toTs := 2000000000, bars := 3, warnings := [],
          timestamps := [1000, 2000, 3000],
          indicators := [("vwap", JsVal.num 2)] }) := by
  have hsv : sumVol tbC1 = (1 : ℚ) + (1 + (1 + 0)) := rfl
  have hsv3 : sumVol tbC1 = 3 := by rw [hsv]; norm_num
  have hst : sumTPV tbC1 =
      ((2 + 2 + 2) / 3 * 1 : ℚ) +
        ((2 + 2 + 2) / 3 * 1 + ((2 + 2 + 2) / 3 * 1 + 0)) := rfl
  have hst6 : sumTPV tbC1 = 6 := by rw [hst]; norm_num
  have hlast : (vwapValues tbC1).getLast? =
      some (sumTPV tbC1 / sumVol tbC1) := by
    rw [vwapValues_getLast tbC1 (by decide), if_pos (by rw [hsv3]; norm_num)]
  have hval : lastQ (vwapValues tbC1) = .num 2 := by
    unfold lastQ
    rw [hlast]
    dsimp only
    rw [hsv3, hst6]
    norm_num
  have hcb : calcBody throwingTalib "vwap" tbC1
      { priceSource := PriceSource.close } =
      .ok (some { value := lastQ (vwapValues tbC1),
                  prev := prevOrNull (vwapValues tbC1),
                  delta := deltaOrNull (vwapValues tbC1),
                  meta := { requiredBars := 1, providedBars := 3,
                            warmupBars := 0,
                            extra := [("anchor", .str "window")] } }) := rfl
  have hcalcv : calculateIndicator throwingTalib "vwap" tbC1
      { priceSource := PriceSource.close } =
      some { value := .num 2,
             prev := prevOrNull (vwapValues tbC1),
             delta := deltaOrNull (vwapValues tbC1),
             meta := { requiredBars := 1, providedBars := 3, warmupBars := 0,
                       extra := [("anchor", .str "window")] } } := by
    unfold calculateIndicator
    rw [hcb]
    dsimp only
    rw [hval]
  have htb : transformBarsToArrays [mkRawBar 1000, mkRawBar 2000, mkRawBar 3000]
      { priceSource := PriceSource.close } = tbC1 := by
    simp only [transformBarsToArrays, mkRawBar, scaleDown, tbC1]
    norm_num
  have hwi : (buildAll throwingTalib { priceSource := PriceSource.close }
      tbC1 3 ["vwap"] []).map (fun p => (p.1, windowEntry p.2)) =
      [("vwap", JsVal.num 2)] := by
    rw [buildAll, buildAll]
    dsimp only [setKey, List.map]
    rw [entryFor, hcalcv]
    rfl
  unfold o2_indicators
  rw [if_neg (by decide)]
  unfold o2_indicatorsMain
  rw [show fetchC1 (o2Query reqC1 2000000000) =
    FetchOutcome.ok [mkRawBar 1000, mkRawBar 2000, mkRawBar 3000] from rfl]
  dsimp only
  rw [if_neg (show ¬ ([mkRawBar 1000, mkRawBar 2000, mkRawBar 3000] :
    List RawBar).length = 0 by decide)]
  rw [show trimIncompleteLastBar reqC1.includeIncompleteLastBar reqC1.resolution
      2000000000 [mkRawBar 1000, mkRawBar 2000, mkRawBar 3000] =
      ([mkRawBar 1000, mkRawBar 2000, mkRawBar 3000], ([] : List Warning))
    from rfl]
  dsimp only
  rw [if_neg (show ¬ (([mkRawBar 1000, mkRawBar 2000, mkRawBar 3000] :
    List RawBar).length < maxLookbackOf (normalizedOf reqC1)) by decide)]
  unfold o2_finish
  dsimp only
  rw [show reqC1.priceSource = PriceSource.close from rfl,
    show reqC1.strict = false from rfl,
    show normalizedOf reqC1 = ["vwap"] from rfl, htb,
    show ([mkRawBar 1000, mkRawBar 2000, mkRawBar 3000] :
      List RawBar).length = 3 from rfl]
  rw [computeAll_lenient]
  dsimp only
  rw [show reqC1.mode = Mode.window from rfl]
  dsimp only
  rw [hwi]
  rfl
